import Mathlib

/-!
Verification of `next-chatgpt-apps` (a Next.js / ChatGPT iframe bridge).

This file shallowly embeds the package's core logic and proves, or refutes,
the claims of the natural-language specification against it:

* the `UrlController` component (src/components/UrlController.tsx): query
  serialization/collapsing and the two synchronization effects (host → app
  via tool output, app → host via widget state), with their loop-suppression
  markers;
* the `ChatGPTBootstrap` component (src/components/ChatGPTBootstrap.tsx):
  the activation gate, the history/fetch/observer/click patches and their
  teardown;
* the hooks (src/hooks/index.ts): `useWidgetState` host-push and local-set
  behavior, `useChatGPT`'s `callTool` / `requestDisplayMode` fallbacks;
* `isInIframe` / `isChatGPTIframe` (src/utils/base-url.ts).

Browser primitives (`URL` resolution, `URLSearchParams`, history slots) are
modelled explicitly; machine-level details irrelevant to the claims
(percent-encoding, dot-segment normalization) are noted where simplified.
-/

namespace NCA

/-! ## Query model

`URLSearchParams` is an ordered multimap; we model it as an ordered list of
key/value pairs.  `qAppend` is `URLSearchParams.append` (adds at the end);
`qSet` is `URLSearchParams.set` (replaces the first occurrence of the key in
place, removes later occurrences, appends if absent). -/

/-- An ordered list of query key/value pairs: the state of a
`URLSearchParams` object.  Percent-encoding is not modelled. -/
abbrev QueryPairs := List (String × String)

/-- `URLSearchParams.append`: add a pair at the end. -/
def qAppend (q : QueryPairs) (k v : String) : QueryPairs := q ++ [(k, v)]

/-- Helper for `qSet`: replace the first pair with key `k` in place and drop
later pairs with that key; append if the key is absent. -/
def qSetAux (k v : String) : QueryPairs → QueryPairs
  | [] => [(k, v)]
  | (k₁, v₁) :: rest =>
    if k₁ = k then (k, v) :: rest.filter (fun p => p.1 ≠ k)
    else (k₁, v₁) :: qSetAux k v rest

/-- `URLSearchParams.set`. -/
def qSet (q : QueryPairs) (k v : String) : QueryPairs := qSetAux k v q

/-- `URLSearchParams.toString()`: `k=v` pairs joined by `&`
(percent-encoding not modelled). -/
def qToString (q : QueryPairs) : String :=
  String.intercalate "&" (q.map (fun p => p.1 ++ "=" ++ p.2))

/-- A value of the `searchParams` record of a `UrlData`:
`string | string[]` in the source. -/
inductive SPValue where
  | str (v : String)
  | list (vs : List String)
deriving DecidableEq, Repr

/-- The `searchParams` record (`Record<string, string | string[]>`),
as an insertion-ordered association list, the way a JS object iterates. -/
abbrev SPRecord := List (String × SPValue)

/-- UrlController, host → app serialization (src/components/UrlController.tsx
lines 321–330): iterate the record entries; an array value appends one query
pair per element in order, a string value uses `params.set`. -/
def serializeSearchParams (sp : SPRecord) : QueryPairs :=
  sp.foldl
    (fun params kv =>
      match kv.2 with
      | .list vs => vs.foldl (fun p v => qAppend p kv.1 v) params
      | .str v => qSet params kv.1 v)
    []

/-- JS object lookup on the accumulating `searchParamsObj`. -/
def lookupSP (acc : SPRecord) (k : String) : Option SPValue :=
  (acc.find? (fun p => p.1 == k)).map (fun p => p.2)

/-- JS object update in place (key position preserved). -/
def updateSP (acc : SPRecord) (k : String) (v : SPValue) : SPRecord :=
  acc.map (fun p => if p.1 = k then (k, v) else p)

/-- UrlController, app → host collapsing, one `searchParams.forEach` step
(src/components/UrlController.tsx lines 385–396).  The source guards with
JS truthiness, `if (existing)`: an existing NON-EMPTY string becomes a
two-element list, but an existing empty string is falsy and is simply
overwritten by the new value (the `else` branch); an existing array is
always truthy (even empty) and gets the value appended; an absent key is
inserted as a string. -/
def collapseStep (acc : SPRecord) (kv : String × String) : SPRecord :=
  match lookupSP acc kv.1 with
  | some (.str s) =>
    if s = "" then updateSP acc kv.1 (.str kv.2)
    else updateSP acc kv.1 (.list [s, kv.2])
  | some (.list vs) => updateSP acc kv.1 (.list (vs ++ [kv.2]))
  | none => acc ++ [(kv.1, .str kv.2)]

/-- UrlController, app → host collapsing of the full query. -/
def collapseSearchParams (q : QueryPairs) : SPRecord := q.foldl collapseStep []

/-! ## UrlController state and effects -/

/-- `UrlData` (src/components/UrlController.tsx lines 242–255).  The `params`
field of the interface is never read by the component's logic and is omitted. -/
structure UrlData where
  pathname : String
  searchParams : Option SPRecord
deriving DecidableEq, Repr

/-- The two loop-suppression markers (`lastChatGPTUrlRef`, `lastAppUrlRef`). -/
structure UrlRefs where
  lastChatGPTUrl : Option String
  lastAppUrl : Option String
deriving DecidableEq, Repr

/-- `pathname + (searchParams?.toString() ? "?" + ... : "")` — the router's
current resolved URL string (lines 339–341 and 363–365). -/
def currentUrlOf (pathname : String) (q : QueryPairs) : String :=
  pathname ++ (if qToString q = "" then "" else "?" ++ qToString q)

/-- Target URL built from host-pushed `UrlData` (lines 317–336). -/
def buildTargetUrl (u : UrlData) : String :=
  match u.searchParams with
  | none => u.pathname
  | some sp =>
    let qs := qToString (serializeSearchParams sp)
    if qs = "" then u.pathname else u.pathname ++ "?" ++ qs

/-- Host → app effect (src/components/UrlController.tsx lines 310–356).
`toolOutput` is the tool-output record restricted to `UrlData`-shaped values
(other shapes fail the `urlData?.pathname` guard just like an absent key).
Returns the router navigation issued, if any, and the updated markers. -/
def hostEffect (urlKey : String) (toolOutput : Option (List (String × UrlData)))
    (pathname : String) (searchParams : QueryPairs) (refs : UrlRefs) :
    Option String × UrlRefs :=
  match toolOutput with
  | none => (none, refs)
  | some out =>
    match List.lookup urlKey out with
    | none => (none, refs)
    | some urlData =>
      if urlData.pathname = "" then (none, refs)
      else
        let targetUrl := buildTargetUrl urlData
        let currentUrl := currentUrlOf pathname searchParams
        if targetUrl ≠ currentUrl ∧ some targetUrl ≠ refs.lastChatGPTUrl then
          (some targetUrl, { refs with lastChatGPTUrl := some targetUrl })
        else (none, refs)

/-- A write issued through the widget-state path: `setWidgetState({ url: urlData })`
stores `urlData` in a one-key record; `key` is that record's key. -/
structure WidgetWrite where
  key : String
  data : UrlData
deriving DecidableEq, Repr

/-- App → host effect (src/components/UrlController.tsx lines 359–413).
Returns the widget-state write issued, if any, and the updated markers.
Note the write is literally `setWidgetState({ url: urlData })`: the record
key is the string `"url"`, not the `urlKey` prop. -/
def routeEffect (pathname : String) (searchParams : QueryPairs) (refs : UrlRefs) :
    Option WidgetWrite × UrlRefs :=
  if pathname = "" then (none, refs)
  else
    let currentUrl := currentUrlOf pathname searchParams
    if some currentUrl = refs.lastChatGPTUrl then (none, refs)
    else if some currentUrl = refs.lastAppUrl then (none, refs)
    else
      let spObj := collapseSearchParams searchParams
      let urlData : UrlData :=
        { pathname := pathname
          searchParams :=
            if qToString searchParams = "" then none
            else if spObj = [] then none
            else some spObj }
      (some { key := "url", data := urlData },
       { refs with lastAppUrl := some currentUrl })

/-! ## Window environment and iframe detection (src/utils/base-url.ts) -/

/-- The ambient browser environment as the detection functions observe it:
whether a `window` global exists, whether `window.self === window.top`, and
whether `window.openai` is defined. -/
structure WindowEnv where
  hasWindow : Bool
  selfIsTop : Bool
  openaiPresent : Bool
deriving DecidableEq, Repr

/-- `isInIframe` (src/utils/base-url.ts lines 29–33): false without a
`window`, else `window.self !== window.top`. -/
def isInIframe (env : WindowEnv) : Bool :=
  if env.hasWindow = false then false else !env.selfIsTop

/-- `isChatGPTIframe` (src/utils/base-url.ts lines 35–39): false without a
`window`, else `isInIframe() && typeof window.openai !== 'undefined'`.
The `baseUrl` argument is accepted and ignored, as in the source. -/
def isChatGPTIframe (env : WindowEnv) (_baseUrl : String) : Bool :=
  if env.hasWindow = false then false
  else isInIframe env && env.openaiPresent

/-! ## ChatGPTBootstrap (src/components/ChatGPTBootstrap.tsx)

Function references are modelled by an inductive type in which each patch
wraps the function it replaced, so propositional equality of `Fn` values is
reference identity: a patched slot is never equal to the original it wraps. -/

/-- A browser function reference: an unpatched base function, or one of the
three patch wrappers applied to the reference it captured. -/
inductive Fn where
  | base (id : Nat)
  | patchedReplace (orig : Fn)
  | patchedPush (orig : Fn)
  | patchedFetch (orig : Fn)
deriving DecidableEq, Repr

/-- The mutable browser slots the bootstrap effect touches. -/
structure Browser where
  replaceState : Fn
  pushState : Fn
  fetchFn : Fn
  observerConnected : Bool
  clickListener : Bool
deriving DecidableEq, Repr

/-- The original references captured by the effect closure at install time,
plus which cleanup branch (the `enableExternalLinks` one) was taken. -/
structure SavedFns where
  origReplace : Fn
  origPush : Fn
  origFetch : Fn
  flagWasOn : Bool
deriving DecidableEq, Repr

/-- The rendered output of `ChatGPTBootstrap`: always a `<base>` tag. -/
structure BaseTag where
  href : String
deriving DecidableEq, Repr

/-- `ChatGPTBootstrap`'s render (src/components/ChatGPTBootstrap.tsx line
174): `<base href={baseUrl} />`, unconditionally. -/
def chatGPTBootstrapRender (baseUrl : String) : BaseTag := { href := baseUrl }

/-- `ChatGPTBootstrap`'s mount effect (src/components/ChatGPTBootstrap.tsx
lines 22–172): return untouched without a `window` or when
`isChatGPTIframe` fails; otherwise patch `history.replaceState`,
`history.pushState` and `window.fetch` (each wrapper capturing the reference
it replaced), connect the mutation observer, and add the click listener when
`enableExternalLinks` is set.  Returns the new browser state and the saved
references held by the cleanup closure (`none` when the gate failed). -/
def chatGPTBootstrapMount (env : WindowEnv) (baseUrl : String)
    (enableExternalLinks : Bool) (b : Browser) : Browser × Option SavedFns :=
  if env.hasWindow = false then (b, none)
  else if isChatGPTIframe env baseUrl = false then (b, none)
  else
    let originalReplace := b.replaceState
    let b₁ := { b with replaceState := Fn.patchedReplace originalReplace }
    let originalPush := b₁.pushState
    let b₂ := { b₁ with pushState := Fn.patchedPush originalPush }
    let originalFetch := b₂.fetchFn
    let b₃ := { b₂ with fetchFn := Fn.patchedFetch originalFetch }
    let b₄ := { b₃ with observerConnected := true }
    if enableExternalLinks then
      ({ b₄ with clickListener := true },
       some { origReplace := originalReplace, origPush := originalPush,
              origFetch := originalFetch, flagWasOn := true })
    else
      (b₄,
       some { origReplace := originalReplace, origPush := originalPush,
              origFetch := originalFetch, flagWasOn := false })

/-- The cleanup returned by the mount effect (lines 154–171): a no-op when
the gate never fired; otherwise remove the click listener (only in the
`enableExternalLinks` branch), disconnect the observer, and write the saved
original references back into the three slots. -/
def chatGPTBootstrapCleanup (saved : Option SavedFns) (b : Browser) : Browser :=
  match saved with
  | none => b
  | some s =>
    let b₀ := if s.flagWasOn then { b with clickListener := false } else b
    let b₁ := { b₀ with observerConnected := false }
    { b₁ with replaceState := s.origReplace, pushState := s.origPush,
              fetchFn := s.origFetch }

/-! ## URL resolution model

Model of the WHATWG `new URL(input, base)` constructor restricted to what the
patched history functions and the click handler need: http(s) URLs, absolute
and relative string inputs, `URL`-object inputs, and the empty/absent input.
Percent-encoding and dot-segment normalization are not modelled. -/

/-- A parsed URL / location: `href` is
`scheme ++ "://" ++ host ++ pathname ++ search ++ hash`, with `search`
either empty or starting with `?` and `hash` either empty or starting
with `#`. -/
structure Location where
  scheme : String
  host : String
  pathname : String
  search : String
  hash : String
deriving DecidableEq, Repr

/-- `location.origin`. -/
def Location.origin (l : Location) : String := l.scheme ++ "://" ++ l.host

/-- `location.href`. -/
def Location.href (l : Location) : String :=
  l.origin ++ l.pathname ++ l.search ++ l.hash

/-- Split a character list at the first occurrence of `c`; the second
component keeps `c` when present. -/
def breakOnAux (c : Char) : List Char → List Char × List Char
  | [] => ([], [])
  | x :: xs =>
    if x = c then ([], x :: xs)
    else
      let r := breakOnAux c xs
      (x :: r.1, r.2)

/-- Split a string at the first occurrence of `c` (kept in the suffix). -/
def breakOn (c : Char) (s : String) : String × String :=
  let r := breakOnAux c s.toList
  (String.mk r.1, String.mk r.2)

/-- Split a URL remainder into `(path, search, hash)`: the fragment starts
at the first `#`, the query at the first `?` before it. -/
def splitUrlParts (s : String) : String × String × String :=
  let h := breakOn (Char.ofNat 35) s
  let q := breakOn (Char.ofNat 63) h.1
  (q.1, q.2, h.2)

/-- `pre` is a prefix of `s` (character-list computation, so that concrete
instances evaluate inside the kernel). -/
def strHasPrefix (pre s : String) : Bool := pre.toList.isPrefixOf s.toList

/-- Recognize an absolute http(s) URL string and strip its scheme. -/
def schemeSplit (s : String) : Option (String × String) :=
  if strHasPrefix "http://" s then some ("http", String.mk (s.toList.drop 7))
  else if strHasPrefix "https://" s then
    some ("https", String.mk (s.toList.drop 8))
  else none

/-- Split the first character-run of an authority: the host ends at the
first `/`, `?` or `#`. -/
def breakHostAux : List Char → List Char × List Char
  | [] => ([], [])
  | x :: xs =>
    if x = Char.ofNat 47 ∨ x = Char.ofNat 63 ∨ x = Char.ofNat 35 then
      ([], x :: xs)
    else
      let r := breakHostAux xs
      (x :: r.1, r.2)

/-- Parse an absolute http(s) URL whose scheme was already stripped. -/
def parseAfterScheme (scheme rest : String) : Location :=
  let hr := breakHostAux rest.toList
  let parts := splitUrlParts (String.mk hr.2)
  { scheme := scheme
    host := String.mk hr.1
    pathname := if parts.1 = "" then "/" else parts.1
    search := parts.2.1
    hash := parts.2.2 }

/-- The base-path "directory": everything up to and including the last `/`. -/
def dirOf (p : String) : String :=
  String.mk ((p.toList.reverse.dropWhile (fun c => c ≠ Char.ofNat 47)).reverse)

/-- `new URL(s, base)` for a string input: empty input resolves to the base
without its fragment; an absolute http(s) string parses on its own; a
relative string replaces path/query/fragment against the base (path-absolute
inputs replace the whole path, other paths merge onto the base directory, a
query-or-fragment-only input keeps the base path and, if fragment-only, the
base query). -/
def resolveString (s : String) (loc : Location) : Location :=
  if s = "" then { loc with hash := "" }
  else
    match schemeSplit s with
    | some pr => parseAfterScheme pr.1 pr.2
    | none =>
      let parts := splitUrlParts s
      if parts.1 = "" then
        { loc with
            search := if parts.2.1 = "" ∧ parts.2.2 ≠ "" then loc.search
                      else parts.2.1
            hash := parts.2.2 }
      else if strHasPrefix "/" parts.1 then
        { loc with pathname := parts.1, search := parts.2.1, hash := parts.2.2 }
      else
        { loc with pathname := dirOf loc.pathname ++ parts.1,
                   search := parts.2.1, hash := parts.2.2 }

/-- The `url` argument of `history.pushState` / `history.replaceState`:
`string | URL | null | undefined`.  The patched functions turn `null` and
`undefined` into `''` via `url ?? ''`. -/
inductive UrlArg where
  | absent
  | str (s : String)
  | urlObj (u : Location)
deriving DecidableEq, Repr

/-- `new URL(url ?? '', window.location.href)` as the patched history
functions compute it (src/components/ChatGPTBootstrap.tsx lines 49 and 62);
a `URL` object input is stringified to its `href` and re-parsed. -/
def resolveUrl : UrlArg → Location → Location
  | .absent, loc => resolveString "" loc
  | .str s, loc => resolveString s loc
  | .urlObj u, loc => resolveString u.href loc

/-- The URL string the patched history functions forward to the original
call: `u.pathname + u.search + u.hash` (lines 50 and 63). -/
def patchedHistoryUrl (url : UrlArg) (loc : Location) : String :=
  let u := resolveUrl url loc
  u.pathname ++ u.search ++ u.hash

/-- The original `history.pushState`, modelled on the session-history entry
list: appends the given URL string as a new entry. -/
def originalPushState (entries : List String) (href : String) : List String :=
  entries ++ [href]

/-- The patched `history.pushState` (lines 57–66): resolve, strip the
origin, forward to the original. -/
def patchedPushState (loc : Location) (entries : List String) (url : UrlArg) :
    List String :=
  originalPushState entries (patchedHistoryUrl url loc)

/-- The original `history.replaceState`: replaces the current entry. -/
def originalReplaceState (entries : List String) (href : String) :
    List String :=
  entries.dropLast ++ [href]

/-- The patched `history.replaceState` (lines 44–53). -/
def patchedReplaceState (loc : Location) (entries : List String)
    (url : UrlArg) : List String :=
  originalReplaceState entries (patchedHistoryUrl url loc)

/-! ## External-link click interception
(src/components/ChatGPTBootstrap.tsx lines 126–152) -/

/-- What a click dispatch produced: whether `e.preventDefault()` ran, and
the `href`s forwarded to `window.openai.openExternal`. -/
structure ClickResult where
  prevented : Bool
  openExternalCalls : List String
deriving DecidableEq, Repr

/-- The capture-phase click handler.  `anchor` is
`e.target.closest('a')?.href`: `none` when there is no enclosing anchor,
and the guard `!a.href` also drops the empty string.  The resolved URL's
origin is compared against the document origin and the app origin; only
when both differ AND `window.openai?.openExternal` exists is the href
forwarded and the default prevented.  (The source's catch-branch for
malformed URLs is unreachable here because the model resolver is total.) -/
def handleClick (loc : Location) (appOrigin : String)
    (openExternalPresent : Bool) (anchor : Option String) : ClickResult :=
  match anchor with
  | none => { prevented := false, openExternalCalls := [] }
  | some href =>
    if href = "" then { prevented := false, openExternalCalls := [] }
    else
      let url := resolveString href loc
      if url.origin ≠ loc.origin ∧ url.origin ≠ appOrigin then
        if openExternalPresent then
          { prevented := true, openExternalCalls := [href] }
        else { prevented := false, openExternalCalls := [] }
      else { prevented := false, openExternalCalls := [] }

/-! ## useWidgetState (src/hooks/index.ts lines 205–245)

The local cache is the `useState` value; `none` is JS `null`/`undefined`
(the source compares with loose `!= null`, which excludes both). -/

/-- The effect on the local cache of a host push of `widgetState`
(src/hooks/index.ts lines 226–230): the pushed value reaches
`widgetStateFromWindow` through `useOpenAiGlobal('widgetState')`, and the
effect overwrites the cache only when it is non-null. -/
def applyHostWidgetPush {α : Type} (cache pushed : Option α) : Option α :=
  match pushed with
  | some v => some v
  | none => cache

/-- The observable state of one mounted `useWidgetState`: the local cache
and the arguments of host persistence calls issued but not yet resolved. -/
structure WidgetStateCell (α : Type) where
  cache : Option α
  pending : List α

/-- The setter returned by `useWidgetState` (src/hooks/index.ts lines
232–242), applied to a direct value: the local cache becomes the new state,
and only when the new state is non-null and `window.openai?.setWidgetState`
exists is an (asynchronous, still pending) host persistence call issued. -/
def setWidgetStateLocal {α : Type} (hostPresent : Bool)
    (m : WidgetStateCell α) (s : Option α) : WidgetStateCell α :=
  { cache := s
    pending :=
      match s with
      | some v => if hostPresent then m.pending ++ [v] else m.pending
      | none => m.pending }

/-- Resolution of the oldest pending host persistence promise: the host
round-trip completing touches nothing local. -/
def completeHostPersist {α : Type} (m : WidgetStateCell α) :
    WidgetStateCell α :=
  { m with pending := m.pending.drop 1 }

/-! ## useChatGPT write operations (src/hooks/index.ts lines 70–121) -/

/-- A content item of a `CallToolResponse`. -/
structure ContentItem where
  type : String
  text : String
deriving DecidableEq, Repr

/-- Opaque structured payload, modelled as a JSON-object-like record. -/
abbrev StructuredContent := List (String × String)

/-- `CallToolResponse` (src/types/chatgpt.ts lines 205–209);
`structuredContent := none` is JS `null`. -/
structure CallToolResponse where
  content : List ContentItem
  structuredContent : Option StructuredContent
deriving DecidableEq, Repr

/-- The recognized display modes (src/types/chatgpt.ts line 182). -/
inductive DisplayMode where
  | fullscreen
  | pip
  | inline
deriving DecidableEq, Repr

/-- `requestDisplayMode`'s response shape: `{ mode }`. -/
structure DisplayModeResponse where
  mode : DisplayMode
deriving DecidableEq, Repr

/-- The host capability object's two awaited methods, as the hook sees
them; each may reject (modelled by `Except`). -/
structure OpenAIAPIModel where
  callToolImpl : String → List (String × String) →
    Except String CallToolResponse
  requestDisplayModeImpl : DisplayMode → Except String DisplayModeResponse

/-- The hook's `callTool` (src/hooks/index.ts lines 94–103): await the host
call when `window.openai?.callTool` exists, else return
`{ content: [], structuredContent: null }`.  A `.ok` result is a normal
return; the absent-host branch cannot throw. -/
def callToolHook (api : Option OpenAIAPIModel) (name : String)
    (args : List (String × String)) : Except String CallToolResponse :=
  match api with
  | some a => a.callToolImpl name args
  | none => .ok { content := [], structuredContent := none }

/-- The hook's `requestDisplayMode` (src/hooks/index.ts lines 105–111):
await the host call when present, else return `{ mode: 'inline' }`. -/
def requestDisplayModeHook (api : Option OpenAIAPIModel) (mode : DisplayMode) :
    Except String DisplayModeResponse :=
  match api with
  | some a => a.requestDisplayModeImpl mode
  | none => .ok { mode := DisplayMode.inline }

/-! ## Helper lemmas -/

/-- Serializing a list value folds `append` over the elements in order. -/
theorem serialize_list_foldl (k : String) (vs : List String) (acc : QueryPairs) :
    vs.foldl (fun p v => qAppend p k v) acc = acc ++ vs.map (fun v => (k, v)) := by
  induction vs generalizing acc with
  | nil => simp
  | cons v t ih =>
    rw [List.foldl_cons, ih]
    simp [qAppend]

/-- One collapse step on a one-key accumulator holding a list appends the
value to that list. -/
theorem collapseStep_list (k v : String) (l : List String) :
    collapseStep [(k, SPValue.list l)] (k, v) = [(k, SPValue.list (l ++ [v]))] := by
  simp [collapseStep, lookupSP, updateSP, List.find?]

/-- Collapsing pairs that all share key `k` onto a one-key list accumulator
appends all the values in order. -/
theorem collapse_same_key_foldl (k : String) (t l : List String) :
    (t.map (fun v => (k, v))).foldl collapseStep [(k, SPValue.list l)] =
      [(k, SPValue.list (l ++ t))] := by
  induction t generalizing l with
  | nil => simp
  | cons v t ih => simp [collapseStep_list, ih]

/-- A successful host → app navigation records the navigated URL in the
`lastChatGPTUrlRef` marker. -/
theorem host_nav_sets_marker (urlKey : String)
    (toolOutput : Option (List (String × UrlData))) (pathname : String)
    (searchParams : QueryPairs) (refs : UrlRefs) (t : String) (refs' : UrlRefs)
    (h : hostEffect urlKey toolOutput pathname searchParams refs = (some t, refs')) :
    refs'.lastChatGPTUrl = some t := by
  unfold hostEffect at h
  split at h
  · simp_all
  · split at h
    · simp_all
    · split at h
      · simp_all
      · dsimp only at h
        split at h
        · rw [Prod.mk.injEq] at h
          obtain ⟨h1, h2⟩ := h
          subst h2
          exact congrArg some (Option.some.inj h1)
        · simp_all

/-! ## Claims -/

/-- C8 counterexample: the round trip fails when the repeated key's first
value is the empty string.  `{tag: ["", "b"]}` serializes to the repeated
pairs of `tag=&tag=b`, but collapsing that query yields `{tag: "b"}` — the
`if (existing)` truthiness guard treats the stored empty string as absent
and overwrites it, losing the first value. -/
theorem query_array_roundtrip_counterexample :
    serializeSearchParams [("tag", SPValue.list ["", "b"])] =
      [("tag", ""), ("tag", "b")] ∧
    collapseSearchParams [("tag", ""), ("tag", "b")] =
      [("tag", SPValue.str "b")] ∧
    [("tag", SPValue.str "b")] ≠ [("tag", SPValue.list ["", "b"])] := by
  exact ⟨rfl, rfl, by decide⟩

/-- C8 amended: serialization and collapsing are mutually inverse on
repeated keys with order preserved, provided the repeated key's first value
is non-empty: a `searchParams` entry whose value is such a list expands to
one query pair per element in list order, and collapsing that query yields
back the same ordered list.  (With an empty first value the code's
`if (existing)` truthiness guard overwrites it instead, see the
counterexample.) -/
theorem query_array_roundtrip (k : String) (vs : List String)
    (h : 2 ≤ vs.length) (hne : vs.head? ≠ some "") :
    serializeSearchParams [(k, SPValue.list vs)] = vs.map (fun v => (k, v)) ∧
    collapseSearchParams (serializeSearchParams [(k, SPValue.list vs)]) =
      [(k, SPValue.list vs)] := by
  have hser : serializeSearchParams [(k, SPValue.list vs)] =
      vs.map (fun v => (k, v)) := by
    simp [serializeSearchParams, serialize_list_foldl]
  refine ⟨hser, ?_⟩
  rw [hser]
  rcases vs with _ | ⟨a, _ | ⟨b, t⟩⟩
  · simp at h
  · simp at h
  · simp only [List.head?_cons, ne_eq, Option.some.injEq] at hne
    show ((a :: b :: t).map (fun v => (k, v))).foldl collapseStep [] = _
    have h1 : collapseStep [] (k, a) = [(k, SPValue.str a)] := by
      simp [collapseStep, lookupSP]
    have h2 : collapseStep [(k, SPValue.str a)] (k, b) =
        [(k, SPValue.list [a, b])] := by
      simp [collapseStep, lookupSP, updateSP, List.find?, hne]
    simp only [List.map_cons, List.foldl_cons, h1, h2, collapse_same_key_foldl]
    simp

/-- Witness for C8 at the spec's own example `{tag: ["a","b"]}`. -/
theorem query_array_roundtrip_witness :
    collapseSearchParams
        (serializeSearchParams [("tag", SPValue.list ["a", "b"])]) =
      [("tag", SPValue.list ["a", "b"])] :=
  (query_array_roundtrip "tag" ["a", "b"] (by decide) (by decide)).2

/-- C2: loop freedom, host → app.  After the URL Synchronizer navigates the
router because of host-pushed tool-output data (any `urlKey`, any pushed
record), a subsequent route-change observation whose current URL equals the
navigated URL — the last host-pushed marker — performs no widget-state
write. -/
theorem host_push_no_echo (urlKey : String)
    (toolOutput : Option (List (String × UrlData))) (p₀ : String)
    (q₀ : QueryPairs) (refs : UrlRefs) (t : String) (refs' : UrlRefs)
    (h : hostEffect urlKey toolOutput p₀ q₀ refs = (some t, refs'))
    (p₁ : String) (q₁ : QueryPairs) (hcur : currentUrlOf p₁ q₁ = t) :
    (routeEffect p₁ q₁ refs').1 = none := by
  have hm : refs'.lastChatGPTUrl = some t :=
    host_nav_sets_marker urlKey toolOutput p₀ q₀ refs t refs' h
  unfold routeEffect
  split
  · rfl
  · dsimp only
    rw [hcur, hm, if_pos rfl]

/-- Witness for C2: the spec's own example, host pushes `{pathname: "/a"}`
from `/`, the router lands on `/a`, and the echo observation writes
nothing. -/
theorem host_push_no_echo_witness :
    (routeEffect "/a" []
        { lastChatGPTUrl := some "/a", lastAppUrl := none }).1 = none :=
  host_push_no_echo "url"
    (some [("url", { pathname := "/a", searchParams := none })]) "/" []
    { lastChatGPTUrl := none, lastAppUrl := none } "/a"
    { lastChatGPTUrl := some "/a", lastAppUrl := none } rfl "/a" [] rfl

/-- C1 counterexample: mounting `UrlController` with `urlKey = "navigation"`
and observing a reportable route change to `/b`, the widget-state write is
stored under the literal record key `"url"`, not under `"navigation"` — the
app → host effect never consults `urlKey`. -/
theorem urlcontroller_write_key_counterexample :
    (routeEffect "/b" [] { lastChatGPTUrl := none, lastAppUrl := none }).1 =
      some { key := "url", data := { pathname := "/b", searchParams := none } } ∧
    "url" ≠ "navigation" := by
  exact ⟨rfl, by decide⟩

/-- C1 amended: every widget-state write produced by a reported router
location change is stored under the fixed key `"url"`, whatever the
`urlKey` option is — `urlKey` configures only the tool-output read
direction. -/
theorem route_write_key_is_url (pathname : String) (searchParams : QueryPairs)
    (refs : UrlRefs) (w : WidgetWrite)
    (h : (routeEffect pathname searchParams refs).1 = some w) :
    w.key = "url" := by
  unfold routeEffect at h
  split at h
  · simp_all
  · dsimp only at h
    split at h
    · simp_all
    · split at h
      · simp_all
      · rw [Option.some.injEq] at h
        rw [← h]

/-- Witness for the C1 amended theorem at a concrete reported change. -/
theorem route_write_key_is_url_witness :
    ({ key := "url", data := { pathname := "/b", searchParams := none } } :
      WidgetWrite).key = "url" :=
  route_write_key_is_url "/b" [] { lastChatGPTUrl := none, lastAppUrl := none }
    { key := "url", data := { pathname := "/b", searchParams := none } } rfl

/-- C3: the Bootstrap Interposer installs its patches if and only if the
frame is nested (`isInIframe`) and `window.openai` is present; when the
gate fails the browser state is untouched; the base-URL tag is rendered
either way. -/
theorem bootstrap_activation_gate (env : WindowEnv) (baseUrl : String)
    (enableExternalLinks : Bool) (b : Browser) :
    ((chatGPTBootstrapMount env baseUrl enableExternalLinks b).2.isSome =
      (isInIframe env && env.openaiPresent)) ∧
    ((isInIframe env && env.openaiPresent) = true →
      (chatGPTBootstrapMount env baseUrl enableExternalLinks b).1.replaceState
          = Fn.patchedReplace b.replaceState ∧
      (chatGPTBootstrapMount env baseUrl enableExternalLinks b).1.pushState
          = Fn.patchedPush b.pushState ∧
      (chatGPTBootstrapMount env baseUrl enableExternalLinks b).1.fetchFn
          = Fn.patchedFetch b.fetchFn ∧
      (chatGPTBootstrapMount env baseUrl enableExternalLinks b).1.observerConnected
          = true) ∧
    ((isInIframe env && env.openaiPresent) = false →
      (chatGPTBootstrapMount env baseUrl enableExternalLinks b).1 = b) ∧
    (chatGPTBootstrapRender baseUrl).href = baseUrl := by
  refine ⟨?_, ?_, ?_, rfl⟩ <;>
  · cases env with
    | mk hw st op =>
      cases hw <;> cases st <;> cases op <;> cases enableExternalLinks <;>
        simp [chatGPTBootstrapMount, isChatGPTIframe, isInIframe]

/-- C5: after an install (activation gate fired), running the cleanup
restores `history.replaceState`, `history.pushState` and `window.fetch` to
the exact pre-patch references and disconnects the mutation observer, for
either value of `enableExternalLinks`. -/
theorem teardown_restores_originals (env : WindowEnv) (baseUrl : String)
    (enableExternalLinks : Bool) (b : Browser)
    (h : isChatGPTIframe env baseUrl = true) :
    (chatGPTBootstrapCleanup
        (chatGPTBootstrapMount env baseUrl enableExternalLinks b).2
        (chatGPTBootstrapMount env baseUrl enableExternalLinks b).1).replaceState
        = b.replaceState ∧
    (chatGPTBootstrapCleanup
        (chatGPTBootstrapMount env baseUrl enableExternalLinks b).2
        (chatGPTBootstrapMount env baseUrl enableExternalLinks b).1).pushState
        = b.pushState ∧
    (chatGPTBootstrapCleanup
        (chatGPTBootstrapMount env baseUrl enableExternalLinks b).2
        (chatGPTBootstrapMount env baseUrl enableExternalLinks b).1).fetchFn
        = b.fetchFn ∧
    (chatGPTBootstrapCleanup
        (chatGPTBootstrapMount env baseUrl enableExternalLinks b).2
        (chatGPTBootstrapMount env baseUrl enableExternalLinks b).1).observerConnected
        = false := by
  have hw : env.hasWindow = true := by
    cases hwv : env.hasWindow with
    | true => rfl
    | false => simp [isChatGPTIframe, hwv] at h
  cases enableExternalLinks <;>
    simp [chatGPTBootstrapMount, chatGPTBootstrapCleanup, hw, h]

/-- Witness for C5: a concrete nested-with-host mount and teardown, with
`enableExternalLinks` on. -/
theorem teardown_restores_originals_witness :
    (chatGPTBootstrapCleanup
        (chatGPTBootstrapMount
          { hasWindow := true, selfIsTop := false, openaiPresent := true }
          "http://localhost:3000" true
          { replaceState := Fn.base 0, pushState := Fn.base 1,
            fetchFn := Fn.base 2, observerConnected := false,
            clickListener := false }).2
        (chatGPTBootstrapMount
          { hasWindow := true, selfIsTop := false, openaiPresent := true }
          "http://localhost:3000" true
          { replaceState := Fn.base 0, pushState := Fn.base 1,
            fetchFn := Fn.base 2, observerConnected := false,
            clickListener := false }).1).replaceState = Fn.base 0 ∧
    (chatGPTBootstrapCleanup
        (chatGPTBootstrapMount
          { hasWindow := true, selfIsTop := false, openaiPresent := true }
          "http://localhost:3000" true
          { replaceState := Fn.base 0, pushState := Fn.base 1,
            fetchFn := Fn.base 2, observerConnected := false,
            clickListener := false }).2
        (chatGPTBootstrapMount
          { hasWindow := true, selfIsTop := false, openaiPresent := true }
          "http://localhost:3000" true
          { replaceState := Fn.base 0, pushState := Fn.base 1,
            fetchFn := Fn.base 2, observerConnected := false,
            clickListener := false }).1).pushState = Fn.base 1 ∧
    (chatGPTBootstrapCleanup
        (chatGPTBootstrapMount
          { hasWindow := true, selfIsTop := false, openaiPresent := true }
          "http://localhost:3000" true
          { replaceState := Fn.base 0, pushState := Fn.base 1,
            fetchFn := Fn.base 2, observerConnected := false,
            clickListener := false }).2
        (chatGPTBootstrapMount
          { hasWindow := true, selfIsTop := false, openaiPresent := true }
          "http://localhost:3000" true
          { replaceState := Fn.base 0, pushState := Fn.base 1,
            fetchFn := Fn.base 2, observerConnected := false,
            clickListener := false }).1).fetchFn = Fn.base 2 ∧
    (chatGPTBootstrapCleanup
        (chatGPTBootstrapMount
          { hasWindow := true, selfIsTop := false, openaiPresent := true }
          "http://localhost:3000" true
          { replaceState := Fn.base 0, pushState := Fn.base 1,
            fetchFn := Fn.base 2, observerConnected := false,
            clickListener := false }).2
        (chatGPTBootstrapMount
          { hasWindow := true, selfIsTop := false, openaiPresent := true }
          "http://localhost:3000" true
          { replaceState := Fn.base 0, pushState := Fn.base 1,
            fetchFn := Fn.base 2, observerConnected := false,
            clickListener := false }).1).observerConnected = false :=
  teardown_restores_originals
    { hasWindow := true, selfIsTop := false, openaiPresent := true }
    "http://localhost:3000" true
    { replaceState := Fn.base 0, pushState := Fn.base 1, fetchFn := Fn.base 2,
      observerConnected := false, clickListener := false } rfl

/-- C4: while interposition is active, for every URL argument shape
(absolute string, relative string, `URL` object, empty/absent) the patched
`history.pushState` stores, and `history.replaceState` forwards, exactly the
pathname + search + hash of the argument resolved against the current
location — and that forwarded string is never the full resolved absolute
URL (the origin, which always contains `"://"`, is stripped). -/
theorem history_patch_strips_origin (url : UrlArg) (loc : Location)
    (entries : List String) :
    patchedPushState loc entries url =
      entries ++ [(resolveUrl url loc).pathname ++ (resolveUrl url loc).search
        ++ (resolveUrl url loc).hash] ∧
    patchedReplaceState loc entries url =
      entries.dropLast ++ [(resolveUrl url loc).pathname
        ++ (resolveUrl url loc).search ++ (resolveUrl url loc).hash] ∧
    patchedHistoryUrl url loc ≠ (resolveUrl url loc).href := by
  refine ⟨rfl, rfl, ?_⟩
  intro heq
  have hlen := congrArg String.length heq
  have h3 : ("://" : String).length = 3 := rfl
  simp only [patchedHistoryUrl, Location.href, Location.origin,
    String.length_append, h3] at hlen
  omega

/-- C6 counterexample: a host push of `null` to the `widgetState` global
does not overwrite a non-null local cached copy — the effect keeps the old
value, so not "every pushed value" overwrites. -/
theorem host_push_overwrite_counterexample :
    applyHostWidgetPush (some 1) (none : Option Nat) = some 1 ∧
    (some 1 : Option Nat) ≠ none := by
  exact ⟨rfl, by decide⟩

/-- C6 amended: every non-null host-pushed `widgetState` update overwrites
the local cached copy with exactly the pushed value (no merging), while a
null push leaves the cache unchanged. -/
theorem host_push_overwrites_cache {α : Type} (cache : Option α) (v : α) :
    applyHostWidgetPush cache (some v) = some v ∧
    applyHostWidgetPush cache none = cache :=
  ⟨rfl, rfl⟩

/-- C7: calling the widget-state setter with a non-null state `v` makes the
local cache `v` in the same synchronous step that issues the (pending) host
persistence call with that same value, and the cache still reads `v` after
any number of host round-trip completions — with or without a host. -/
theorem widget_set_optimistic {α : Type} (hostPresent : Bool)
    (m : WidgetStateCell α) (v : α) (k : Nat) :
    (setWidgetStateLocal hostPresent m (some v)).cache = some v ∧
    (setWidgetStateLocal true m (some v)).pending = m.pending ++ [v] ∧
    (completeHostPersist^[k] (setWidgetStateLocal hostPresent m (some v))).cache
      = some v := by
  refine ⟨rfl, rfl, ?_⟩
  induction k with
  | zero => rfl
  | succ n ih =>
    rw [Function.iterate_succ_apply']
    exact ih

/-- C9: with the host capability object absent, `callTool` returns the
empty-content response shape `{content: [], structuredContent: null}` as a
normal (non-throwing) result for every tool name and argument mapping, and
`requestDisplayMode` returns `{mode: "inline"}` for every recognized mode. -/
theorem absent_host_safe_defaults (name : String)
    (args : List (String × String)) (mode : DisplayMode) :
    callToolHook none name args =
      .ok { content := [], structuredContent := none } ∧
    requestDisplayModeHook none mode = .ok { mode := DisplayMode.inline } :=
  ⟨rfl, rfl⟩

/-- Without `openExternal`, every click dispatch is a no-op for the
handler: nothing prevented, nothing forwarded. -/
theorem handleClick_openexternal_absent (loc : Location) (appOrigin : String)
    (anchor : Option String) :
    handleClick loc appOrigin false anchor =
      { prevented := false, openExternalCalls := [] } := by
  match anchor with
  | none => rfl
  | some href =>
    unfold handleClick
    dsimp only
    split
    · rfl
    · split
      · simp
      · rfl

/-- Whenever the handler prevented the default, `openExternal` was present
and the href was forwarded to it. -/
theorem handleClick_prevented_cases (loc : Location) (appOrigin : String)
    (present : Bool) (a : Option String)
    (hp : (handleClick loc appOrigin present a).prevented = true) :
    present = true ∧
      (handleClick loc appOrigin present a).openExternalCalls ≠ [] := by
  match a with
  | none => simp [handleClick] at hp
  | some href =>
    by_cases h0 : href = ""
    · simp [handleClick, h0] at hp
    · by_cases h1 : (resolveString href loc).origin ≠ loc.origin ∧
          (resolveString href loc).origin ≠ appOrigin
      · cases present with
        | true =>
          refine ⟨rfl, ?_⟩
          simp [handleClick, h0, h1]
        | false => simp [handleClick, h0, h1] at hp
      · simp [handleClick, h0, h1] at hp

/-- C10: with `openExternal` absent from the host API, the click handler
never prevents the default navigation and never invokes a host operation,
whatever the clicked anchor resolves to; and whenever the default IS
prevented, `openExternal` was present and was invoked. -/
theorem click_requires_openexternal (loc : Location) (appOrigin : String)
    (anchor : Option String) :
    handleClick loc appOrigin false anchor =
      { prevented := false, openExternalCalls := [] } ∧
    (∀ present : Bool, ∀ a : Option String,
      (handleClick loc appOrigin present a).prevented = true →
        present = true ∧
        (handleClick loc appOrigin present a).openExternalCalls ≠ []) :=
  ⟨handleClick_openexternal_absent loc appOrigin anchor,
   fun present a hp => handleClick_prevented_cases loc appOrigin present a hp⟩

/-- Witness for C10's second conjunct at a concrete external-origin click
with `openExternal` present. -/
theorem click_requires_openexternal_witness :
    (handleClick ⟨"https", "a.test", "/", "", ""⟩ "https://b.test" true
        (some "https://c/x")).prevented = true ∧
    ((handleClick ⟨"https", "a.test", "/", "", ""⟩ "https://b.test" true
        (some "https://c/x")).openExternalCalls ≠ []) :=
  ⟨rfl,
    ((click_requires_openexternal ⟨"https", "a.test", "/", "", ""⟩
        "https://b.test" (some "https://c/x")).2
      true (some "https://c/x") rfl).2⟩

end NCA
